import Mathlib

/-!
Verification of the buffering / worker-pool subsystem and its job-monitor
sibling from qualysapi (src/qualysapi/api_objects.py), as a shallow
embedding: each Python class is a Lean structure, each method a Lean
function on that structure, and the remove-while-iterating loop of
ImportBuffer.add is modelled index by index exactly as the CPython `for`
statement executes it.  Exceptions are modelled with `Except PyError`,
`None` with `Option`, timestamps with `Rat`.
-/

/-- Exceptions that the embedded code can raise.  `parsingBufferException`
and `reportRunnerException` come from the qualysapi exceptions module;
`typeError` and `attributeError` are the builtin Python TypeError and
AttributeError. -/
inductive PyError where
  | parsingBufferException
  | reportRunnerException
  | typeError
  | attributeError
deriving DecidableEq, Repr

/-- Turns an `Except` result into the Boolean "this call raised". -/
def raisesError {β : Type} : Except PyError β → Bool
  | .error _ => true
  | .ok _ => false

namespace BufferQueue

/-!
BufferQueue (api_objects.py lines 322-341).  The class docstring calls it
a wrapper around a collections deque, but that is stale: line 322
subclasses multiprocessing.queues.Queue, and the instance at line 444 is
constructed as BufferQueue(ctx=get_context()) — a multiprocessing queue.
That runtime class defines neither __len__ nor popleft, the two
operations the consume body is written against; only put and get (used
by ImportBuffer.add and BufferConsumer.run) exist.  The items the queue
currently holds are embedded as a Lean list (head of the list = head of
the queue), and the unsupported operations raise. -/

/-- pyLen models evaluating `len(self)` on a BufferQueue: the runtime
class multiprocessing.queues.Queue defines no __len__, so len raises
TypeError for every instance, whatever the queue holds. -/
def pyLen {α : Type} (_q : List α) : Except PyError Nat :=
  Except.error PyError.typeError

/-- popleft models evaluating `self.popleft()` on a BufferQueue: the
runtime class has no such attribute, so the lookup raises
AttributeError.  consume never actually reaches it, because `len(self)`
raises first. -/
def popleft {α : Type} (_q : List α) : Except PyError (α × List α) :=
  Except.error PyError.attributeError

/-- consumeLoop models the comprehension
`[self.popleft() for i in range(lim)]`: `lim` popleft calls, each taking
the head of what remains, collected in order.  With popleft raising,
the first iteration already fails; the loop structure is kept as the
source writes it. -/
def consumeLoop {α : Type} : Nat → List α → Except PyError (List α × List α)
  | 0, q => Except.ok ([], q)
  | n + 1, q => do
    let hd ← popleft q
    let rest ← consumeLoop n hd.2
    Except.ok (hd.1 :: rest.1, rest.2)

/-- consume (api_objects.py lines 332-341).  The body first evaluates
`lim = len(self) if len(self) < lim else lim` and then the comprehension
of popleft calls.  On the runtime class the very first expression,
`len(self)`, raises TypeError, so every call of consume fails before
any item is popped — its docstring (return up to lim elements, cleaning
up the buffer) describes behaviour the code can never deliver. -/
def consume {α : Type} (lim : Nat) (q : List α) :
    Except PyError (List α × List α) := do
  let l ← pyLen q
  let lim := if l < lim then l else lim
  consumeLoop lim q

end BufferQueue

/-- Claim C2, evaluated on the code: the claim says consume k returns the
min N k oldest items in insertion order and removes them; in fact every
call of BufferQueue.consume raises TypeError — the body opens with
`len(self)`, and the runtime base class (multiprocessing.queues.Queue,
line 322, instantiated with ctx=get_context() at line 444) defines no
__len__ — so no call ever returns any items, for every queue content and
every limit, including the failing input of three queued items with
limit two. -/
theorem bufferQueue_consume_raises (α : Type) (lim : Nat) (q : List α) :
    BufferQueue.consume lim q = Except.error PyError.typeError ∧
    raisesError (BufferQueue.consume lim q) = true ∧
    BufferQueue.consume 2 [10, 20, 30] = Except.error PyError.typeError :=
  ⟨rfl, rfl, rfl⟩

/-!
BufferStats (api_objects.py lines 344-379).  Counters and the two
timestamps; an unset timestamp is `none`.
-/

structure BufferStats where
  processed : Nat := 0
  updates : Nat := 0
  adds : Nat := 0
  deletes : Nat := 0
  start_time : Option ℚ := none
  end_time : Option ℚ := none
deriving DecidableEq, Repr

namespace BufferStats

/-- calculate_processing_average (api_objects.py lines 358-361).  The
docstring promises the average time per operation between start_time,
end_time and number processed, but the body is a single `pass`
statement: the call computes nothing, raises nothing and returns None. -/
def calculate_processing_average (_s : BufferStats) : Option ℚ :=
  none

/-- increment_updates (api_objects.py lines 363-367). -/
def increment_updates (s : BufferStats) : BufferStats :=
  { s with updates := s.updates + 1 }

/-- increment_insertions (api_objects.py lines 369-373). -/
def increment_insertions (s : BufferStats) : BufferStats :=
  { s with adds := s.adds + 1 }

/-- decrement (api_objects.py lines 375-379): despite the name it
increases the deleted-items counter. -/
def decrement (s : BufferStats) : BufferStats :=
  { s with deletes := s.deletes + 1 }

end BufferStats

/-- Claim C5, evaluated at the failing input: on a state with both
timestamps set and distinct (start 0, end 5) and 10 items processed, the
claim says average_rate returns processed divided by the elapsed time,
namely 2; the code (a bare `pass`) returns None — it neither returns a
quotient for set-and-distinct timestamps nor raises a DivisionUndefined
condition when they are unset or equal. -/
theorem bufferStats_average_is_stub :
    BufferStats.calculate_processing_average
      { processed := 10, start_time := some 0, end_time := some 5 } = none ∧
    (∀ q : ℚ, BufferStats.calculate_processing_average
      { processed := 10, start_time := some 0, end_time := some 5 } ≠ some q) ∧
    BufferStats.calculate_processing_average
      { processed := 10, start_time := none, end_time := none } = none ∧
    ((10 : ℚ) / (5 - 0) = 2) := by
  refine ⟨rfl, ?_, rfl, by norm_num⟩
  intro q
  simp [BufferStats.calculate_processing_average]

/-!
BufferConsumer (api_objects.py lines 382-420), the worker process.  Its
state after construction holds the bite size, a reference to the queue
(embedded as the list of items the queue currently holds) and the
optional shared results list.
-/

structure BufferConsumerState (α : Type) where
  bite_size : Nat
  queue : List α
  results_list : Option (List α)
deriving DecidableEq, Repr

namespace BufferConsumer

/-- init models BufferConsumer.__init__ (api_objects.py lines 389-404):
bite_size defaults to 1000, a missing queue raises
ParsingBufferException, and results_list is optional with default None —
no check is made on it. -/
def init {α : Type} (bite_size : Option Nat) (q : Option (List α))
    (results_list : Option (List α)) : Except PyError (BufferConsumerState α) :=
  let bs := bite_size.getD 1000
  match q with
  | none => Except.error PyError.parsingBufferException
  | some qv => Except.ok { bite_size := bs, queue := qv, results_list := results_list }

/-- getTimeout is the timeout argument of the queue.get call inside
BufferConsumer.run (api_objects.py line 414): 0.5 seconds. -/
def getTimeout : ℚ := 1 / 2

/-- run models the loop of BufferConsumer.run (api_objects.py lines
406-420): one item is withdrawn per attempt; on success the item is
appended verbatim to results_list when that list is present and skipped
when it is None; when the queue is exhausted the get times out with
queue.Empty, which is caught and ends the loop.  The function returns
(items dequeued in dequeue order, final results_list); totality of the
function is the termination of the loop, and no PyError escapes it. -/
def run {α : Type} : List α → Option (List α) → List α × Option (List α)
  | [], res => ([], res)
  | x :: q, res =>
    let r := run q (res.map (fun l => l ++ [x]))
    (x :: r.1, r.2)

theorem run_eq {α : Type} :
    ∀ (q : List α) (res : Option (List α)),
      run q res = (q, res.map (fun l => l ++ q)) := by
  intro q
  induction q with
  | nil =>
    intro res
    cases res <;> simp [run]
  | cons x xs ih =>
    intro res
    cases res <;> simp [run, ih]

end BufferConsumer

/-- Claim C4: the worker loop BufferConsumer.run withdraws one item per
attempt with a 0.5-second timeout; on each success it applies the default
processing contract — appending the dequeued item verbatim to the result
collector — and continues; on a queue-empty timeout it terminates the
loop normally, returning the collector extended by exactly the dequeued
items in dequeue order, raising nothing (run is a total function into
results, not into Except PyError). -/
theorem bufferConsumer_run_contract (α : Type) (q res : List α) :
    BufferConsumer.run q (some res) = (q, some (res ++ q)) ∧
    (∀ r : Option (List α), BufferConsumer.run ([] : List α) r = ([], r)) ∧
    (∀ (x : α) (q1 : List α) (r : List α),
      BufferConsumer.run (x :: q1) (some r) =
        (x :: q1, some ((r ++ [x]) ++ q1))) ∧
    BufferConsumer.getTimeout = 1 / 2 := by
  refine ⟨by simp [BufferConsumer.run_eq], fun r => ?_, fun x q1 r => ?_, rfl⟩
  · cases r <;> simp [BufferConsumer.run]
  · simp [BufferConsumer.run_eq]

/-- Claim C10: a BufferConsumer constructed with a queue but with
results_list left at its default None is accepted without error (no
exception is raised at construction), and its run loop still dequeues
every item of the queue in order but appends nothing anywhere — the
collector stays None, nothing is collected, and the loop terminates
normally on queue emptiness. -/
theorem bufferConsumer_none_collector (α : Type) (q : List α) (bs : Option Nat) :
    BufferConsumer.init bs (some q) none =
      Except.ok { bite_size := bs.getD 1000, queue := q, results_list := none } ∧
    raisesError (BufferConsumer.init bs (some q) none) = false ∧
    BufferConsumer.run q none = (q, (none : Option (List α))) := by
  refine ⟨rfl, rfl, ?_⟩
  simp [BufferConsumer.run_eq]

/-!
ImportBuffer (api_objects.py lines 423-517), the buffer manager.  A
worker in the running set is a handle with an identity and the liveness
flag that is_alive reports; workers are started alive, and death happens
outside the manager (the worker process exits on queue timeout), so
states with dead handles in the running set are reachable inputs of add.
In the source, queue / stats / running are class-level attributes;
a single-instance run starts from their initial values (empty), which is
what init produces here.  Only the default consumer class
(BufferConsumer) is modelled; the consumer kwarg that would replace it is
out of scope of the claims.
-/

structure WorkerHandle where
  id : Nat
  alive : Bool
deriving DecidableEq, Repr

structure ImportBufferState (α : Type) where
  trigger_limit : Nat
  bite_size : Nat
  max_consumers : Nat
  queue : List α
  results_list : List α
  running : List WorkerHandle
  next_id : Nat
deriving DecidableEq, Repr

/-- Keyword arguments of ImportBuffer.__init__.  The callbacks are
modelled as opaque handles (identifying the caller-supplied function),
because __init__ never calls or stores them, only their identity could
matter. -/
structure ImportBufferKwargs where
  trigger_limit : Option Nat := none
  bite_size : Option Nat := none
  max_consumers : Option Nat := none
  completion_callback : Option Nat := none
  consumer_callback : Option Nat := none
deriving DecidableEq, Repr

namespace ImportBuffer

/-- init models ImportBuffer.__init__ (api_objects.py lines 456-493): it
pops trigger_limit / bite_size / max_consumers with defaults 5000 / 1000
/ 5, creates the managed results list, and pops the consumer kwarg
(defaulting to the BufferConsumer class).  Note that neither
completion_callback nor consumer_callback is read anywhere in the body,
although the docstring calls completion_callback Required. -/
def init (α : Type) (kw : ImportBufferKwargs) : ImportBufferState α :=
  { trigger_limit := kw.trigger_limit.getD 5000
    bite_size := kw.bite_size.getD 1000
    max_consumers := kw.max_consumers.getD 5
    queue := []
    results_list := []
    running := []
    next_id := 0 }

/-- removeFirst models the Python list.remove call: the first element
equal to the argument is removed.  In the reap loop the removed element
is always a member, so the not-found ValueError path is unreachable. -/
def removeFirst : List WorkerHandle → WorkerHandle → List WorkerHandle
  | [], _ => []
  | y :: ys, x => if y = x then ys else y :: removeFirst ys x

/-- reapFrom models the CPython execution of
`for csmr in self.running: if not csmr.is_alive(): self.running.remove(csmr)`
(api_objects.py lines 506-508).  The list iterator keeps an index into
the list being mutated: yielding the element at the index advances the
index, and a removal shifts the later elements one slot left, so the
element directly after a removed one is never visited.  The first
argument is fuel bounding the number of iterations; the loop makes at
most as many iterations as the initial list length (the index grows by
one per iteration and the length never grows), so reap supplies exactly
that much fuel and the fuel-exhausted branch coincides with the normal
exit. -/
def reapFrom : Nat → List WorkerHandle → Nat → List WorkerHandle
  | 0, l, _ => l
  | f + 1, l, idx =>
    if h : idx < l.length then
      let x := l.get ⟨idx, h⟩
      if x.alive then reapFrom f l (idx + 1)
      else reapFrom f (removeFirst l x) (idx + 1)
    else l

/-- reap is the whole reaping loop of ImportBuffer.add. -/
def reap (l : List WorkerHandle) : List WorkerHandle :=
  reapFrom l.length l 0

/-- add models ImportBuffer.add (api_objects.py lines 496-508): put the
item on the queue; if the running set is empty, construct a consumer on
the shared queue and results list, start it (the new handle is alive)
and append it to the running set; then run the reaping loop.  No other
branch exists: the backlog is never compared against trigger_limit and
the running count never against max_consumers. -/
def add {α : Type} (item : α) (s : ImportBufferState α) : ImportBufferState α :=
  let q := s.queue ++ [item]
  let started :=
    if s.running.length = 0 then
      (s.running ++ [⟨s.next_id, true⟩], s.next_id + 1)
    else (s.running, s.next_id)
  { s with queue := q, running := reap started.1, next_id := started.2 }

/-- addAll submits the items one by one through add. -/
def addAll {α : Type} (items : List α) (s : ImportBufferState α) :
    ImportBufferState α :=
  items.foldl (fun st it => add it st) s

/-- finish models ImportBuffer.finish (api_objects.py lines 511-517):
join every worker of the running set, then return list(results_list).
Joining is sequentialized: a joined worker completes its run loop over
whatever remains on the shared queue, appending into the shared results
list (the first joined worker drains the queue; later ones time out at
once).  The second component records the argument of every
completion_callback invocation that finish performs — the source body
contains no call to any callback, so it is always empty.  joinStep is
the body of the join loop: joining one worker lets it run to completion
on the remaining queue and shared results list. -/
def joinStep {α : Type} (acc : List α × List α) (_w : WorkerHandle) :
    List α × List α :=
  let out := BufferConsumer.run acc.1 (some acc.2)
  ([], out.2.getD acc.2)

def finish {α : Type} (s : ImportBufferState α) : List α × List (List α) :=
  let qr := s.running.foldl joinStep (s.queue, s.results_list)
  (qr.2, [])

/-- importRun is a whole run of the buffer: construct it, submit every
item, then drain it. -/
def importRun (α : Type) (kw : ImportBufferKwargs) (items : List α) :
    List α × List (List α) :=
  finish (addAll items (init α kw))

theorem reapFrom_all_alive :
    ∀ (f : Nat) (l : List WorkerHandle) (idx : Nat),
      (∀ w ∈ l, w.alive = true) → reapFrom f l idx = l := by
  intro f
  induction f with
  | zero => intro l idx _; rfl
  | succ g ih =>
    intro l idx h
    rw [reapFrom]
    by_cases hlt : idx < l.length
    · have halive : (l.get ⟨idx, hlt⟩).alive = true := h _ (l.get_mem _ _)
      simp only [hlt, dif_pos, halive, if_pos]
      exact ih l (idx + 1) h
    · simp [hlt]

theorem add_preserves {α : Type} (item : α) (s : ImportBufferState α)
    (h : ∀ w ∈ s.running, w.alive = true) :
    (add item s).queue = s.queue ++ [item] ∧
    (add item s).results_list = s.results_list ∧
    (∀ w ∈ (add item s).running, w.alive = true) ∧
    (add item s).running ≠ [] := by
  have hq : (add item s).queue = s.queue ++ [item] := by
    by_cases hz : s.running.length = 0 <;> simp [add, hz]
  have hr : (add item s).results_list = s.results_list := by
    by_cases hz : s.running.length = 0 <;> simp [add, hz]
  by_cases hz : s.running.length = 0
  · have hnil : s.running = [] := List.length_eq_zero.mp hz
    have hall : ∀ w ∈ s.running ++ [(⟨s.next_id, true⟩ : WorkerHandle)],
        w.alive = true := by
      intro w hw
      rcases List.mem_append.mp hw with hw1 | hw1
      · exact h w hw1
      · rcases List.mem_singleton.mp hw1 with rfl; rfl
    have hrun : (add item s).running =
        s.running ++ [(⟨s.next_id, true⟩ : WorkerHandle)] := by
      simp only [add, hz, if_pos, reap]
      exact reapFrom_all_alive _ _ _ hall
    rw [hrun]
    exact ⟨hq, hr, hall, by simp [hnil]⟩
  · have hrun : (add item s).running = s.running := by
      simp only [add, hz, if_neg, not_false_iff, reap]
      exact reapFrom_all_alive _ _ _ h
    rw [hrun]
    exact ⟨hq, hr, h, fun hc => hz (by simp [hc])⟩

theorem addAll_preserves {α : Type} :
    ∀ (items : List α) (s : ImportBufferState α),
      (∀ w ∈ s.running, w.alive = true) →
      (addAll items s).queue = s.queue ++ items ∧
      (addAll items s).results_list = s.results_list ∧
      (∀ w ∈ (addAll items s).running, w.alive = true) ∧
      (items ≠ [] → (addAll items s).running ≠ []) ∧
      (s.running ≠ [] → (addAll items s).running ≠ []) := by
  intro items
  induction items with
  | nil =>
    intro s h
    exact ⟨by simp [addAll], rfl, h, fun hc => absurd rfl hc, fun hne => hne⟩
  | cons x xs ih =>
    intro s h
    obtain ⟨hq, hr, hal, hne⟩ := add_preserves x s h
    have step : addAll (x :: xs) s = addAll xs (add x s) := rfl
    obtain ⟨ihq, ihr, ihal, _, ihne⟩ := ih (add x s) hal
    refine ⟨?_, ?_, ihal, fun _ => ihne hne, fun _ => ihne hne⟩
    · rw [step, ihq, hq, List.append_assoc]; rfl
    · rw [step, ihr, hr]

theorem joinStep_eq {α : Type} (acc : List α × List α) (w : WorkerHandle) :
    joinStep acc w = ([], acc.2 ++ acc.1) := by
  simp [joinStep, BufferConsumer.run_eq]

theorem finish_drains {α : Type} (s : ImportBufferState α) :
    (s.running = [] → finish s = (s.results_list, [])) ∧
    (s.running ≠ [] → finish s = (s.results_list ++ s.queue, [])) := by
  have hfix : ∀ (rest : List WorkerHandle) (r : List α),
      rest.foldl joinStep ([], r) = ([], r) := by
    intro rest
    induction rest with
    | nil => intro r; rfl
    | cons w ws ih =>
      intro r
      rw [List.foldl_cons, joinStep_eq]
      simp only [List.append_nil]
      exact ih r
  constructor
  · intro h
    simp [finish, h]
  · intro h
    rcases List.exists_cons_of_ne_nil h with ⟨w, rest, hw⟩
    rw [finish, hw, List.foldl_cons, joinStep_eq]
    simp only [hfix]

end ImportBuffer

/-- Claim C3: for every run in which N items were submitted and the
default processing contract was used (no processing failure is modelled
for the default append-only contract, which cannot fail), finish joins
every running worker — each joined worker completes its loop over the
remaining queue — and then returns the shared result collector as a
plain list whose length is exactly N. -/
theorem importBuffer_drain_length (α : Type) (kw : ImportBufferKwargs)
    (items : List α) :
    (ImportBuffer.importRun α kw items).1.length = items.length := by
  unfold ImportBuffer.importRun
  have hinit : ∀ w ∈ (ImportBuffer.init α kw).running, w.alive = true := by
    intro w hw
    simp [ImportBuffer.init] at hw
  obtain ⟨hq, hr, _, hne, _⟩ :=
    ImportBuffer.addAll_preserves items (ImportBuffer.init α kw) hinit
  cases items with
  | nil =>
    have hid : ImportBuffer.addAll ([] : List α) (ImportBuffer.init α kw) =
        ImportBuffer.init α kw := rfl
    rw [hid, ((ImportBuffer.finish_drains (ImportBuffer.init α kw)).1
      (by simp [ImportBuffer.init]))]
    simp [ImportBuffer.init]
  | cons x xs =>
    have hrun := hne (by simp)
    rw [(ImportBuffer.finish_drains _).2 hrun, List.length_append, hr, hq]
    simp [ImportBuffer.init]

/-- Claim C7, evaluated on the code: the claim says the caller-supplied
completion hook is invoked exactly once after finish with the full result
sequence; in the code ImportBuffer.__init__ never reads the
completion_callback keyword (constructing with it and without it yields
identical buffers) and ImportBuffer.finish performs zero callback
invocations on every run — the hook is never called, not called once. -/
theorem importBuffer_completion_callback_never_called (α : Type)
    (kw : ImportBufferKwargs) (items : List α) :
    (ImportBuffer.importRun α kw items).2 = [] ∧
    ImportBuffer.init α kw =
      ImportBuffer.init α { kw with completion_callback := none } := by
  exact ⟨rfl, rfl⟩

/-- Claim C1, evaluated at the failing input: a buffer constructed with
trigger_limit 1 (max_consumers left at the default 5), after submitting
10 and 20 and then 30, holds a backlog of 3 items, strictly above its
trigger_limit, with the number of running workers (one, and below
max_consumers) unchanged by the third submit: ImportBuffer.add compares
the backlog against trigger_limit nowhere and never starts an additional
worker while one is running, contradicting the scaling its own class
docstring documents. -/
theorem importBuffer_add_ignores_trigger_limit :
    (ImportBuffer.add 30 (ImportBuffer.addAll [10, 20]
        (ImportBuffer.init ℕ { trigger_limit := some 1 }))).trigger_limit = 1 ∧
    (ImportBuffer.add 30 (ImportBuffer.addAll [10, 20]
        (ImportBuffer.init ℕ { trigger_limit := some 1 }))).max_consumers = 5 ∧
    (ImportBuffer.add 30 (ImportBuffer.addAll [10, 20]
        (ImportBuffer.init ℕ { trigger_limit := some 1 }))).queue.length = 3 ∧
    (ImportBuffer.add 30 (ImportBuffer.addAll [10, 20]
        (ImportBuffer.init ℕ { trigger_limit := some 1 }))).running.length = 1 ∧
    (ImportBuffer.add 30 (ImportBuffer.addAll [10, 20]
        (ImportBuffer.init ℕ { trigger_limit := some 1 }))).trigger_limit <
      (ImportBuffer.add 30 (ImportBuffer.addAll [10, 20]
        (ImportBuffer.init ℕ { trigger_limit := some 1 }))).queue.length ∧
    (ImportBuffer.add 30 (ImportBuffer.addAll [10, 20]
        (ImportBuffer.init ℕ { trigger_limit := some 1 }))).running.length <
      (ImportBuffer.add 30 (ImportBuffer.addAll [10, 20]
        (ImportBuffer.init ℕ { trigger_limit := some 1 }))).max_consumers := by
  decide

/-- Claim C9, evaluated at the failing input: with the running set
holding two consecutive dead workers (liveness flag false), the reaping
loop of ImportBuffer.add visits the first, removes it, and — because the
iterator index has already advanced over the element that slid into the
freed slot — never visits the second: after add returns, the running set
still contains a worker whose liveness flag is false. -/
theorem importBuffer_reap_misses_dead_worker :
    (ImportBuffer.add 7 (⟨5000, 1000, 5, ([] : List ℕ), [],
        [⟨0, false⟩, ⟨1, false⟩], 2⟩ : ImportBufferState ℕ)).running =
      [⟨1, false⟩] ∧
    (⟨1, false⟩ : WorkerHandle) ∈
      (ImportBuffer.add 7 (⟨5000, 1000, 5, ([] : List ℕ), [],
        [⟨0, false⟩, ⟨1, false⟩], 2⟩ : ImportBufferState ℕ)).running ∧
    (⟨1, false⟩ : WorkerHandle).alive = false := by
  decide

/-!
MapReportRunner (api_objects.py lines 520-571), the job monitor.  A job
reference (map_instance) carries an optional report identifier; the
redis cache hands out connections whose load_api_object refreshes a job
in place with the latest cached state.
-/

structure MapInstance where
  report_id : Option Nat
deriving DecidableEq, Repr

structure APICacheConnection where
  load_api_object : MapInstance → MapInstance

structure APICacheInstance where
  getConnection : APICacheConnection

structure MapReportRunnerState where
  queue : List MapInstance
  redis_cache : APICacheInstance

namespace MapReportRunner

/-- superInit models the call `super(BufferConsumer, self).__init__()` at
api_objects.py line 539.  Python super(type, obj) requires obj to be an
instance of type; the Boolean argument records whether self is a
BufferConsumer, and when it is not the call raises TypeError.  A
MapReportRunner extends Process, not BufferConsumer, so every
MapReportRunner construction reaches this call with false. -/
def superInit (selfIsBufferConsumer : Bool) : Except PyError Unit :=
  if selfIsBufferConsumer then Except.ok () else Except.error PyError.typeError

/-- init models MapReportRunner.__init__ (api_objects.py lines 531-547):
the super call first, then the missing-queue and missing-cache checks,
each raising ReportRunnerException, exactly as written in the source.
Because the super call names BufferConsumer while self is a
MapReportRunner, it raises TypeError and the checks below it never
execute. -/
def init (q : Option (List MapInstance)) (cache : Option APICacheInstance) :
    Except PyError MapReportRunnerState := do
  let _ ← superInit false
  match q with
  | none => throw PyError.reportRunnerException
  | some qv =>
    match cache with
    | none => throw PyError.reportRunnerException
    | some cv => pure ⟨qv, cv⟩

/-- reconcile models the inner `while map_instance.report_id is None`
loop of MapReportRunner.run (api_objects.py lines 559-566): each
iteration opens a cache connection and refreshes the job from the cache;
if the report identifier is still absent afterwards the body is a bare
`pass`, so the loop spins again with no other exit.  The fuel argument
bounds the iterations observed; none means the loop had not exited
within that many iterations. -/
def reconcile (cache : APICacheInstance) : MapInstance → Nat → Option MapInstance
  | _, 0 => none
  | j, fuel + 1 =>
    if j.report_id.isSome then some j
    else reconcile cache (cache.getConnection.load_api_object j) fuel

/-- getTimeout is the timeout of the queue.get call in MapReportRunner.run
(api_objects.py line 557): 1 second. -/
def getTimeout : ℚ := 1

/-- run models the outer loop of MapReportRunner.run (api_objects.py
lines 550-571): withdraw a job reference with the 1-second timeout,
reconcile its report linkage through the inner loop, and repeat; when the
queue times out empty, queue.Empty is caught and the loop ends — the
normal termination path, modelled as some ().  The list argument is the
sequence of jobs the queue yields before sustained emptiness; none means
a dequeued job kept the runner inside the inner loop past the fuel
bound. -/
def run (cache : APICacheInstance) : List MapInstance → Nat → Option Unit
  | [], _ => some ()
  | j :: rest, fuel =>
    match reconcile cache j fuel with
    | none => none
    | some _ => run cache rest fuel

end MapReportRunner

/-- Claim C6, evaluated on the code: on a queue yielding no job the loop
does terminate normally on the 1-second timeout, but for a dequeued job
whose report identifier remains absent after cache refresh (here the
cache refresh returns the job unchanged) the runner never terminates:
for every bound on the number of iterations, the inner reconcile loop —
whose still-absent branch is a bare `pass` — is still spinning, so the
claimed termination for every dequeued job reference fails. -/
theorem mapReportRunner_stuck_on_reportless_job :
    (∀ (cache : APICacheInstance) (fuel : Nat),
      MapReportRunner.run cache [] fuel = some ()) ∧
    (∀ fuel : Nat,
      MapReportRunner.run ⟨⟨fun j => j⟩⟩ [⟨none⟩] fuel = none) ∧
    MapReportRunner.getTimeout = 1 := by
  have hrec : ∀ fuel : Nat,
      MapReportRunner.reconcile ⟨⟨fun j => j⟩⟩ ⟨none⟩ fuel = none := by
    intro fuel
    induction fuel with
    | zero => rfl
    | succ g ih =>
      rw [MapReportRunner.reconcile]
      simp only [Option.isSome_none, Bool.false_eq_true, if_false]
      exact ih
  refine ⟨fun cache fuel => rfl, fun fuel => ?_, rfl⟩
  rw [MapReportRunner.run, hrec fuel]

/-- Claim C8 counterexample: the claim fails at two concrete
constructions.  A BufferConsumer constructed with a queue but without its
collector raises nothing (results_list is optional in the source), and a
MapReportRunner constructed with both its queue and its cache present
still raises — the TypeError from `super(BufferConsumer, self).__init__()`
— although the claim says construction with everything present raises no
such error. -/
theorem construction_failfast_counterexample :
    raisesError (BufferConsumer.init none (some ([] : List ℕ)) none) = false ∧
    MapReportRunner.init (some []) (some ⟨⟨fun j => j⟩⟩) =
      Except.error PyError.typeError :=
  ⟨rfl, rfl⟩

/-- Claim C8 as amended: a BufferConsumer constructed without a queue
raises ParsingBufferException immediately; constructed with a queue it
raises nothing, with or without a collector (the collector is optional
and unchecked); and a MapReportRunner construction raises TypeError in
every case — with or without queue and cache — because its super call
names BufferConsumer, leaving its own queue/cache checks unreachable. -/
theorem construction_failfast_amended :
    (∀ (bs : Option Nat) (res : Option (List ℕ)),
      BufferConsumer.init bs none res =
        Except.error PyError.parsingBufferException) ∧
    (∀ (bs : Option Nat) (q : List ℕ) (res : Option (List ℕ)),
      raisesError (BufferConsumer.init bs (some q) res) = false) ∧
    (∀ (q : Option (List MapInstance)) (c : Option APICacheInstance),
      MapReportRunner.init q c = Except.error PyError.typeError) :=
  ⟨fun _ _ => rfl, fun _ _ _ => rfl, fun _ _ => rfl⟩
